import Mathlib

/-!
Shallow embedding of `src/ptax.py`, a single-endpoint property-tax HTTP API.

Modelling conventions:
* Python floats are modelled by `PyVal`: either an exact fraction, `nan`,
  `inf` or `ninf`.  Fractions are kept unnormalized (`Frac`, an integer
  numerator over an integer denominator that is positive by construction),
  with `Frac.toRat` giving the rational value.  The rate literals of the
  source (`0.0117`, `0.01143`, `0.0057`, `0.0085`) are embedded as the
  exact values of the IEEE-754 double nearest to each decimal literal, so
  that decimal formatting of products agrees with CPython on the inputs
  appearing in the specification (in particular at the tie
  `426650 * 0.0085 = 3626.525`, where the double product lies strictly
  above the tie and CPython prints `3626.53`).  Intermediate arithmetic
  is exact; this coincides with double arithmetic on all the concrete
  inputs of the specification.
* `float(str)` is modelled by `floatOfString` over ASCII, following the
  CPython grammar: optional whitespace, optional sign, `inf`/`infinity`/
  `nan` case-insensitively, or a decimal literal with single underscores
  between digits and an optional exponent.  (Overflow to infinity for
  astronomically large exponents is not modelled; such values are
  rejected by the endpoint's range check either way.)
* `re.search("[A-Z]{2}", address)` is modelled by `findPair`, the
  leftmost pair of consecutive ASCII uppercase letters.
* Bottle returns `""` for a missing query parameter, so the handler takes
  `Option String` arguments and replaces `none` by `""`.
* Python `x / 0.0` raises `ZeroDivisionError`, so `divV` is partial
  (`Option`) and every calculator returns `Option CalcResult`, `none`
  standing for an uncaught runtime error (HTTP 500, `Resp.crash`).
-/

namespace Ptax

/-- An exact fraction: integer numerator over integer denominator.  All
fractions built by the model have a positive denominator; operations are
exact and never normalize. -/
structure Frac where
  num : ℤ
  den : ℤ
deriving DecidableEq

/-- The rational value of a fraction. -/
def Frac.toRat (q : Frac) : ℚ :=
  (q.num : ℚ) / (q.den : ℚ)

/-- Exact product of fractions. -/
def Frac.mul (a b : Frac) : Frac :=
  ⟨a.num * b.num, a.den * b.den⟩

/-- Exact difference of fractions. -/
def Frac.sub (a b : Frac) : Frac :=
  ⟨a.num * b.den - b.num * a.den, a.den * b.den⟩

/-- Exact quotient of fractions, keeping the denominator positive when
both inputs have positive denominators and the divisor is nonzero. -/
def Frac.div (a b : Frac) : Frac :=
  if 0 ≤ b.num then ⟨a.num * b.den, a.den * b.num⟩
  else ⟨-(a.num * b.den), a.den * -b.num⟩

/-- Negation of a fraction. -/
def Frac.neg (q : Frac) : Frac :=
  ⟨-q.num, q.den⟩

/-- Strict order on fractions with positive denominators, by cross
multiplication. -/
def Frac.lt (a b : Frac) : Bool :=
  decide (a.num * b.den < b.num * a.den)

/-- A fraction from an integer. -/
def Frac.ofInt (k : ℤ) : Frac :=
  ⟨k, 1⟩

/-- A Python float value: an exact fraction, or one of the non-finite
values `nan`, `+inf`, `-inf`. -/
inductive PyVal where
  | num (q : Frac)
  | nan
  | inf
  | ninf
deriving DecidableEq

/-- IEEE `<` on `PyVal`: `nan` is incomparable with everything. -/
def ltV : PyVal → PyVal → Bool
  | .num a, .num b => a.lt b
  | .num _, .inf => true
  | .ninf, .num _ => true
  | .ninf, .inf => true
  | _, _ => false

/-- Numeric zero test (Python `x == 0.0` on a float). -/
def isZeroV : PyVal → Bool
  | .num q => q.num == 0
  | _ => false

/-- IEEE multiplication on `PyVal` (exact on fractions). -/
def mulV : PyVal → PyVal → PyVal
  | .num a, .num b => .num (a.mul b)
  | .nan, _ => .nan
  | _, .nan => .nan
  | .inf, .inf => .inf
  | .inf, .ninf => .ninf
  | .ninf, .inf => .ninf
  | .ninf, .ninf => .inf
  | .inf, .num b => if 0 < b.num then .inf else if b.num < 0 then .ninf else .nan
  | .num a, .inf => if 0 < a.num then .inf else if a.num < 0 then .ninf else .nan
  | .ninf, .num b => if 0 < b.num then .ninf else if b.num < 0 then .inf else .nan
  | .num a, .ninf => if 0 < a.num then .ninf else if a.num < 0 then .inf else .nan

/-- IEEE subtraction on `PyVal` (exact on fractions). -/
def subV : PyVal → PyVal → PyVal
  | .num a, .num b => .num (a.sub b)
  | .nan, _ => .nan
  | _, .nan => .nan
  | .inf, .inf => .nan
  | .inf, _ => .inf
  | .ninf, .ninf => .nan
  | .ninf, _ => .ninf
  | .num _, .inf => .ninf
  | .num _, .ninf => .inf

/-- Python `max(a, b)`: returns `b` when `b > a`, else `a` (so `nan` in
the first slot survives, as in CPython). -/
def maxV (a b : PyVal) : PyVal :=
  if ltV a b then b else a

/-- Python float division.  Division by exact zero raises
`ZeroDivisionError` in CPython, modelled by `none`. -/
def divV (a b : PyVal) : Option PyVal :=
  if isZeroV b then none
  else some (match a, b with
    | .num x, .num y => .num (x.div y)
    | .nan, _ => .nan
    | _, .nan => .nan
    | .inf, .inf => .nan
    | .inf, .ninf => .nan
    | .ninf, .inf => .nan
    | .ninf, .ninf => .nan
    | .num _, .inf => .num (.ofInt 0)
    | .num _, .ninf => .num (.ofInt 0)
    | .inf, .num y => if y.num < 0 then .ninf else .inf
    | .ninf, .num y => if y.num < 0 then .inf else .ninf)

/-- ASCII decimal digit test. -/
def isDigitA (c : Char) : Bool :=
  decide ('0' ≤ c) && decide (c ≤ '9')

/-- ASCII whitespace stripped by CPython's `float`. -/
def isWS (c : Char) : Bool :=
  c == ' ' || c == '\t' || c == '\n' || c == '\r' || c == '\x0b' || c == '\x0c'

/-- A run of digits with single underscores strictly between digits, as in
Python numeric literals.  The flag records whether the previous character
was a digit.  Returns the digits with underscores removed. -/
def digRun : List Char → Bool → Option (List Char)
  | [], prev => if prev then some [] else none
  | c :: rest, prev =>
    if isDigitA c then (digRun rest true).map (fun l => c :: l)
    else if c == '_' && prev then digRun rest false
    else none

/-- A possibly-empty digit run (the integer or fraction part around a
decimal point may be empty). -/
def digRunOpt (l : List Char) : Option (List Char) :=
  if l.isEmpty then some [] else digRun l false

/-- Numeric value of a list of ASCII digits. -/
def natOfDigits (l : List Char) : Nat :=
  l.foldl (fun a c => 10 * a + (c.toNat - 48)) 0

/-- Split at the first `e`/`E` (exponent marker). -/
def splitOnE : List Char → List Char × Option (List Char)
  | [] => ([], none)
  | c :: rest =>
    if c == 'e' || c == 'E' then ([], some rest)
    else
      let p := splitOnE rest
      (c :: p.1, p.2)

/-- Split at the first `.` (decimal point). -/
def splitOnDot : List Char → List Char × Option (List Char)
  | [] => ([], none)
  | c :: rest =>
    if c == '.' then ([], some rest)
    else
      let p := splitOnDot rest
      (c :: p.1, p.2)

/-- Consume an optional sign; `true` means negative. -/
def takeSign : List Char → Bool × List Char
  | [] => (false, [])
  | c :: rest =>
    if c == '+' then (false, rest)
    else if c == '-' then (true, rest)
    else (false, c :: rest)

/-- Model of CPython `float(s)` over ASCII: strip whitespace, optional
sign, then `inf`/`infinity`/`nan` (case-insensitive) or a decimal literal
with optional fraction and exponent.  `none` models `ValueError`. -/
def floatOfString (s : String) : Option PyVal :=
  let l := ((s.data.dropWhile isWS).reverse.dropWhile isWS).reverse
  let sl := takeSign l
  let neg := sl.1
  let low := sl.2.map Char.toLower
  if low == ['i', 'n', 'f'] || low == ['i', 'n', 'f', 'i', 'n', 'i', 't', 'y'] then
    some (if neg then .ninf else .inf)
  else if low == ['n', 'a', 'n'] then
    some .nan
  else
    let me := splitOnE sl.2
    let ifr := splitOnDot me.1
    match digRunOpt ifr.1, digRunOpt (ifr.2.getD []) with
    | some ip, some fp =>
      if ip.isEmpty && fp.isEmpty then none
      else
        let mant : Frac := ⟨(natOfDigits (ip ++ fp) : ℤ), (10 : ℤ) ^ fp.length⟩
        match me.2 with
        | none => some (.num (if neg then mant.neg else mant))
        | some ec =>
          let se := takeSign ec
          match digRun se.2 false with
          | none => none
          | some ed =>
            let ex := natOfDigits ed
            let mag : Frac :=
              if se.1 then ⟨mant.num, mant.den * (10 : ℤ) ^ ex⟩
              else ⟨mant.num * (10 : ℤ) ^ ex, mant.den⟩
            some (.num (if neg then mag.neg else mag))
    | _, _ => none

/-- ASCII uppercase letter test, as the regex class `[A-Z]`. -/
def isUpperL (c : Char) : Bool :=
  decide ('A' ≤ c) && decide (c ≤ 'Z')

/-- Leftmost pair of consecutive uppercase ASCII letters: the match of
`re.search("[A-Z]{2}", ·)`. -/
def findPair : List Char → Option (Char × Char)
  | a :: b :: rest =>
    if isUpperL a && isUpperL b then some (a, b) else findPair (b :: rest)
  | _ => none

/-- The extracted two-letter state code, `m.group(0)` in the source. -/
def stateOf (address : String) : Option String :=
  (findPair address.data).map (fun p => String.mk [p.1, p.2])

/-- Round a fraction (with positive denominator) to the nearest integer,
ties to even — IEEE/CPython decimal-formatting rounding. -/
def fracHalfEven (q : Frac) : ℤ :=
  let f := Int.fdiv q.num q.den
  let r2 := 2 * (q.num - f * q.den)
  if r2 < q.den then f else if q.den < r2 then f + 1 else if f % 2 = 0 then f else f + 1

/-- Left-pad a string with zeros to the given width. -/
def padZeros (s : String) (n : Nat) : String :=
  String.mk (List.replicate (n - s.length) '0') ++ s

/-- Render a scaled natural `N` as a fixed-point decimal with `n` digits
after the point. -/
def natFixedString (N n : Nat) : String :=
  toString (N / 10 ^ n) ++ "." ++ padZeros (toString (N % 10 ^ n)) n

/-- Python `f"{v:.nf}"` fixed-point formatting of a `PyVal`. -/
def fmtFixed (n : Nat) (v : PyVal) : String :=
  match v with
  | .nan => "nan"
  | .inf => "inf"
  | .ninf => "-inf"
  | .num q =>
    let a := if q.num < 0 then q.neg else q
    let s := natFixedString (fracHalfEven ⟨a.num * (10 : ℤ) ^ n, a.den⟩).toNat n
    if q.num < 0 then "-" ++ s else s

/-- Exact value of the IEEE-754 double nearest `0.0117` (nationwide
average rate in `default`). -/
def rate_default : Frac :=
  ⟨6744590801950055, 576460752303423488⟩

/-- Exact value of the IEEE-754 double nearest `0.01143` (California
statewide average rate). -/
def rate_california : Frac :=
  ⟨3294473199414065, 288230376151711744⟩

/-- Exact value of the IEEE-754 double nearest `0.0057` (Colorado
statewide average rate). -/
def rate_colorado : Frac :=
  ⟨1642913144064757, 288230376151711744⟩

/-- Exact value of the IEEE-754 double nearest `0.0085` (DC rate). -/
def rate_dc : Frac :=
  ⟨1224979098644775, 144115188075855872⟩

/-- The effective-rate field is a raw float for CA/CO/default but a
formatted string for DC. -/
inductive RateVal where
  | flt (v : PyVal)
  | str (s : String)
deriving DecidableEq

/-- The three-field JSON body of a successful response. -/
structure CalcResult where
  property_tax_amount : String
  property_tax_effective_rate : RateVal
  information : String
deriving DecidableEq

/-- The `california` calculator from the source: statewide average rate times value. -/
def california (address : String) (value : PyVal) : Option CalcResult :=
  let property_tax_effective_rate := PyVal.num rate_california
  some
    { property_tax_amount := fmtFixed 2 (mulV value property_tax_effective_rate)
      property_tax_effective_rate := .flt property_tax_effective_rate
      information := "Based on the California statewide average property tax rate" }

/-- The `colorado` calculator from the source: statewide average rate times value. -/
def colorado (address : String) (value : PyVal) : Option CalcResult :=
  let property_tax_effective_rate := PyVal.num rate_colorado
  some
    { property_tax_amount := fmtFixed 2 (mulV value property_tax_effective_rate)
      property_tax_effective_rate := .flt property_tax_effective_rate
      information := "Based on the Colorado statewide average property tax rate" }

/-- The `washington_dc` calculator from the source: homestead exemption of 73350, rate
0.85% on the assessed value, effective rate amount / value (the source
names its first parameter `amount`). -/
def washington_dc (amount : String) (value : PyVal) : Option CalcResult :=
  let assessed_value := maxV (subV value (.num (.ofInt 73350))) (.num (.ofInt 0))
  let property_tax_amount := mulV assessed_value (.num rate_dc)
  match divV property_tax_amount value with
  | none => none
  | some property_tax_effective_rate =>
    some
      { property_tax_amount := fmtFixed 2 property_tax_amount
        property_tax_effective_rate := .str (fmtFixed 5 property_tax_effective_rate)
        information :=
          "Based on DC-wide property tax rate after application of homestead exemption" }

/-- The `default` calculator from the source: nationwide average rate times value. -/
def default (address : String) (value : PyVal) : Option CalcResult :=
  let property_tax_effective_rate := PyVal.num rate_default
  some
    { property_tax_amount := fmtFixed 2 (mulV value property_tax_effective_rate)
      property_tax_effective_rate := .flt property_tax_effective_rate
      information := "Based on the nationwide average property tax rate" }

/-- The module-level `state_map` dict, as a lookup. -/
def state_map (s : String) : Option (String → PyVal → Option CalcResult) :=
  if s = "CA" then some california
  else if s = "CO" then some colorado
  else if s = "DC" then some washington_dc
  else none

/-- An HTTP response of the endpoint: 200 with a result, 400 with an
error message, or an uncaught exception (500). -/
inductive Resp where
  | ok (result : CalcResult)
  | badRequest (msg : String)
  | crash
deriving DecidableEq

/-- HTTP status code of a response. -/
def Resp.status : Resp → Nat
  | .ok _ => 200
  | .badRequest _ => 400
  | .crash => 500

/-- The range check `value < 1e3 or value > 1e12` of the handler. -/
def rangeBad (v : PyVal) : Bool :=
  ltV v (.num (.ofInt 1000)) || ltV (.num (.ofInt 1000000000000)) v

/-- Selection of the calculation function (`fn`) in the handler: no
address means the national average; an unregistered state also falls back
to the national average. -/
def dispatchFn (address : String) (state : Option String) :
    String → PyVal → Option CalcResult :=
  if address = "" then default
  else
    match state with
    | some st =>
      match state_map st with
      | some fn => fn
      | none => default
    | none => default

/-- The `/ptax` GET handler.  `none` models a missing query parameter
(Bottle yields `""` for those). -/
def ptax (value? address? : Option String) : Resp :=
  let value := value?.getD ""
  if value = "" then .badRequest "No value provided"
  else
    match floatOfString value with
    | none => .badRequest "Bad value provided"
    | some v =>
      if rangeBad v then .badRequest "Value out of range"
      else
        let address := address?.getD ""
        let state := stateOf address
        if address ≠ "" ∧ state = none then
          .badRequest "Please include two-character state (e.g., CA) in address."
        else
          match dispatchFn address state address v with
          | some r => .ok r
          | none => .crash


/-- Denominators produced by the model are positive. -/
def denPosV : PyVal → Prop
  | .num q => 0 < q.den
  | _ => True

theorem floatOfString_empty : floatOfString "" = none := by decide

theorem floatOfString_denPos (s : String) (q : Frac)
    (h : floatOfString s = some (.num q)) : 0 < q.den := by
  simp only [floatOfString] at h
  repeat' split at h
  all_goals simp only [Option.some.injEq, PyVal.num.injEq, reduceCtorEq] at h
  all_goals (subst h; simp only [Frac.neg]; positivity)

end Ptax

namespace Ptax

theorem Frac.lt_iff_toRat (a b : Frac) (ha : 0 < a.den) (hb : 0 < b.den) :
    a.lt b = true ↔ a.toRat < b.toRat := by
  have ha' : (0 : ℚ) < (a.den : ℚ) := by exact_mod_cast ha
  have hb' : (0 : ℚ) < (b.den : ℚ) := by exact_mod_cast hb
  rw [Frac.lt, decide_eq_true_eq, Frac.toRat, Frac.toRat, div_lt_div_iff₀ ha' hb']
  exact_mod_cast Iff.rfl

theorem rangeBad_num_iff (q : Frac) (hq : 0 < q.den) :
    rangeBad (.num q) = true ↔ (q.toRat < 1000 ∨ 1000000000000 < q.toRat) := by
  rw [rangeBad, ltV, ltV, Bool.or_eq_true,
    Frac.lt_iff_toRat q (.ofInt 1000) hq (by norm_num [Frac.ofInt]),
    Frac.lt_iff_toRat (.ofInt 1000000000000) q (by norm_num [Frac.ofInt]) hq]
  norm_num [Frac.toRat, Frac.ofInt]

theorem rangeBad_false_isZero (v : PyVal) (hd : denPosV v) (hr : rangeBad v = false) :
    isZeroV v = false := by
  cases v with
  | num q =>
    have hq : 0 < q.den := hd
    by_cases hz : q.num = 0
    · exfalso
      rw [rangeBad, Bool.or_eq_false_iff] at hr
      have h1 := hr.1
      rw [ltV, Frac.lt, Frac.ofInt, decide_eq_false_iff_not, hz] at h1
      exact h1 (by simpa using by positivity)
    · simp [isZeroV, hz]
  | nan => rfl
  | inf => simp [rangeBad, ltV] at hr
  | ninf => simp [rangeBad, ltV] at hr

theorem washington_dc_eq (amount : String) (v : PyVal) (hz : isZeroV v = false) :
    ∃ rv, divV (mulV (maxV (subV v (.num (.ofInt 73350))) (.num (.ofInt 0))) (.num rate_dc)) v
        = some rv ∧
      washington_dc amount v = some
        { property_tax_amount :=
            fmtFixed 2 (mulV (maxV (subV v (.num (.ofInt 73350))) (.num (.ofInt 0))) (.num rate_dc))
          property_tax_effective_rate := .str (fmtFixed 5 rv)
          information :=
            "Based on DC-wide property tax rate after application of homestead exemption" } := by
  rw [washington_dc]
  unfold divV
  rw [if_neg (by simp [hz])]
  exact ⟨_, rfl, rfl⟩

theorem dispatchFn_isSome (address : String) (state : Option String) (v : PyVal)
    (hz : isZeroV v = false) :
    ∃ r, dispatchFn address state address v = some r := by
  unfold dispatchFn
  split
  · exact ⟨_, rfl⟩
  · cases state with
    | none => exact ⟨_, rfl⟩
    | some st =>
      by_cases hca : st = "CA"
      · subst hca; exact ⟨_, rfl⟩
      · by_cases hco : st = "CO"
        · subst hco; exact ⟨_, rfl⟩
        · by_cases hdc : st = "DC"
          · subst hdc
            obtain ⟨rv, _, hw⟩ := washington_dc_eq address v hz
            exact ⟨_, hw⟩
          · have hmap : state_map st = none := by
              rw [state_map, if_neg hca, if_neg hco, if_neg hdc]
            simp only [hmap]
            exact ⟨_, rfl⟩


theorem floatOfString_denPosV (s : String) (v : PyVal)
    (h : floatOfString s = some v) : denPosV v := by
  cases v with
  | num q => exact floatOfString_denPos s q h
  | nan => trivial
  | inf => trivial
  | ninf => trivial

theorem ptax_novalue (value? address? : Option String) (h : value?.getD "" = "") :
    ptax value? address? = .badRequest "No value provided" := by
  unfold ptax
  rw [if_pos h]

theorem ptax_badvalue (value? address? : Option String)
    (h1 : value?.getD "" ≠ "") (h2 : floatOfString (value?.getD "") = none) :
    ptax value? address? = .badRequest "Bad value provided" := by
  unfold ptax
  rw [if_neg h1, h2]

theorem ptax_outofrange (value? address? : Option String) (v : PyVal)
    (h2 : floatOfString (value?.getD "") = some v) (h3 : rangeBad v = true) :
    ptax value? address? = .badRequest "Value out of range" := by
  have h1 : value?.getD "" ≠ "" := by
    intro h
    rw [h, floatOfString_empty] at h2
    exact Option.noConfusion h2
  unfold ptax
  rw [if_neg h1, h2]
  simp only [h3, if_true]

theorem ptax_valid_eq (value? address? : Option String) (v : PyVal)
    (hv : floatOfString (value?.getD "") = some v)
    (hr : rangeBad v = false) :
    ptax value? address? =
      (if (address?.getD "") ≠ "" ∧ stateOf (address?.getD "") = none then
        Resp.badRequest "Please include two-character state (e.g., CA) in address."
      else
        match dispatchFn (address?.getD "") (stateOf (address?.getD "")) (address?.getD "") v with
        | some r => Resp.ok r
        | none => Resp.crash) := by
  have h1 : value?.getD "" ≠ "" := by
    intro h
    rw [h, floatOfString_empty] at hv
    exact Option.noConfusion hv
  unfold ptax
  rw [if_neg h1, hv]
  simp only [hr, Bool.false_eq_true, if_false]

theorem dispatchFn_of_ne (address s : String) (ha : address ≠ "") :
    dispatchFn address (some s) = (state_map s).getD Ptax.default := by
  unfold dispatchFn
  rw [if_neg ha]
  cases hm : state_map s <;> simp [hm, Option.getD]

theorem findPair_first (l : List Char) (a b : Char) (h : findPair l = some (a, b)) :
    ∃ i, l.get? i = some a ∧ l.get? (i + 1) = some b ∧
      isUpperL a = true ∧ isUpperL b = true ∧
      ∀ j, j < i → ∀ c d, l.get? j = some c → l.get? (j + 1) = some d →
        ¬(isUpperL c = true ∧ isUpperL d = true) := by
  induction l with
  | nil => simp [findPair] at h
  | cons c cs ih =>
    cases cs with
    | nil => simp [findPair] at h
    | cons d rest =>
      simp only [findPair] at h
      by_cases hud : (isUpperL c && isUpperL d) = true
      · rw [if_pos hud] at h
        simp only [Option.some.injEq, Prod.mk.injEq] at h
        obtain ⟨rfl, rfl⟩ := h
        rcases Bool.and_eq_true_iff.mp hud with ⟨h1, h2⟩
        exact ⟨0, rfl, rfl, h1, h2, fun j hj => absurd hj (Nat.not_lt_zero j)⟩
      · rw [if_neg hud] at h
        obtain ⟨i, h1, h2, h3, h4, h5⟩ := ih h
        refine ⟨i + 1, h1, h2, h3, h4, ?_⟩
        intro j hj c0 d0 hc0 hd0
        cases j with
        | zero =>
          intro ⟨hu1, hu2⟩
          simp only [List.get?_cons_zero, Option.some.injEq] at hc0
          simp only [List.get?_cons_succ, List.get?_cons_zero, Option.some.injEq] at hd0
          subst hc0; subst hd0
          exact hud (Bool.and_eq_true_iff.mpr ⟨hu1, hu2⟩)
        | succ j =>
          exact h5 j (Nat.lt_of_succ_lt_succ hj) c0 d0 hc0 hd0


/-- Claim C2: for every value string parsing to a finite number `q` with
`1000 ≤ q ≤ 1e12` and no address parameter, the endpoint returns 200 with
the Default calculator's output: the amount is `q * 0.0117` (with `0.0117`
the IEEE double of the source literal) rounded to 2 decimals as a
fixed-point string, the effective rate is the float `0.0117`, and the
information string describes the nationwide average. -/
theorem ptax_no_address_default (value : String) (q : Frac)
    (hv : floatOfString value = some (.num q))
    (h1 : 1000 ≤ Frac.toRat q) (h2 : Frac.toRat q ≤ 1000000000000) :
    ptax (some value) none =
      .ok { property_tax_amount := fmtFixed 2 (mulV (.num q) (.num rate_default))
            property_tax_effective_rate := .flt (.num rate_default)
            information := "Based on the nationwide average property tax rate" } := by
  have hd := floatOfString_denPos value q hv
  have hr : rangeBad (.num q) = false := by
    rw [Bool.eq_false_iff]
    intro hbad
    rcases (rangeBad_num_iff q hd).mp hbad with h | h
    · exact absurd h (not_lt.mpr h1)
    · exact absurd h (not_lt.mpr h2)
  rw [ptax_valid_eq (some value) none _ hv hr, if_neg (by simp)]
  rfl

theorem ptax_no_address_default_witness :
    (1000 : ℚ) ≤ Frac.toRat ⟨100000, 1⟩ ∧ Frac.toRat ⟨100000, 1⟩ ≤ 1000000000000 ∧
    ptax (some "100000") none =
      .ok { property_tax_amount := "1170.00"
            property_tax_effective_rate := .flt (.num rate_default)
            information := "Based on the nationwide average property tax rate" } := by
  have h1 : (1000 : ℚ) ≤ Frac.toRat ⟨100000, 1⟩ := by norm_num [Frac.toRat]
  have h2 : Frac.toRat (⟨100000, 1⟩ : Frac) ≤ 1000000000000 := by norm_num [Frac.toRat]
  refine ⟨h1, h2, ?_⟩
  rw [ptax_no_address_default "100000" ⟨100000, 1⟩ (by decide) h1 h2]
  decide

/-- Claim C4 (amended): for address `"1600 Pennsylvania Ave, Washington,
DC"` and value `"500000"`, the endpoint returns 200 with amount
`"3626.53"` — the double product `(500000 - 73350) * 0.0085 =
3626.525000...` formatted to 2 decimals — and the effective rate the
string `"0.00725"` formatted to five decimal places. -/
theorem ptax_dc_example :
    ptax (some "500000") (some "1600 Pennsylvania Ave, Washington, DC") =
      .ok { property_tax_amount := "3626.53"
            property_tax_effective_rate := .str "0.00725"
            information :=
              "Based on DC-wide property tax rate after application of homestead exemption" } := by
  decide

/-- Claim C4 (counterexample): the response is not 200 with amount
`"3625.03"` as the original claim states; the computed amount is
`"3626.53"`. -/
theorem ptax_dc_example_cex :
    ptax (some "500000") (some "1600 Pennsylvania Ave, Washington, DC") ≠
      .ok { property_tax_amount := "3625.03"
            property_tax_effective_rate := .str "0.00725"
            information :=
              "Based on DC-wide property tax rate after application of homestead exemption" } := by
  decide

/-- Claim C5 (amended): for address `"1 Infinite Loop, Cupertino, CA"`
and value `"500000"`, the endpoint returns 200 with amount `"5715.00"`
(`500000 * 0.01143 = 5715`) and the effective rate the float `0.01143`. -/
theorem ptax_ca_example :
    ptax (some "500000") (some "1 Infinite Loop, Cupertino, CA") =
      .ok { property_tax_amount := "5715.00"
            property_tax_effective_rate := .flt (.num rate_california)
            information := "Based on the California statewide average property tax rate" } := by
  decide

/-- Claim C5 (counterexample): the response is not 200 with amount
`"57150.00"` as the original claim states; `500000 * 0.01143 = 5715`,
formatted `"5715.00"`. -/
theorem ptax_ca_example_cex :
    ptax (some "500000") (some "1 Infinite Loop, Cupertino, CA") ≠
      .ok { property_tax_amount := "57150.00"
            property_tax_effective_rate := .flt (.num rate_california)
            information := "Based on the California statewide average property tax rate" } := by
  decide

/-- Claim C6 (code bug): the value string `"nan"` parses to the
non-finite float `nan`, passes the range check (both IEEE comparisons
are false), and reaches the Default calculator, which returns 200 with
amount `"nan"` — contradicting the invariant that only finite values in
`[1000, 1e12]` reach a calculator. -/
theorem ptax_nan_reaches_calculator :
    floatOfString "nan" = some .nan ∧
    rangeBad .nan = false ∧
    ptax (some "nan") none =
      .ok { property_tax_amount := "nan"
            property_tax_effective_rate := .flt (.num rate_default)
            information := "Based on the nationwide average property tax rate" } := by
  decide

/-- Claim C9: the endpoint is a deterministic pure function of its query
parameters: identical `value` and `address` parameters yield identical
responses (status and body). -/
theorem ptax_deterministic (value1 value2 address1 address2 : Option String)
    (hv : value1 = value2) (ha : address1 = address2) :
    ptax value1 address1 = ptax value2 address2 ∧
    (ptax value1 address1).status = (ptax value2 address2).status := by
  subst hv; subst ha; exact ⟨rfl, rfl⟩

theorem ptax_deterministic_witness :
    ptax (some "100000") (some "CA") = ptax (some "100000") (some "CA") := by
  exact (ptax_deterministic (some "100000") (some "100000") (some "CA") (some "CA") rfl rfl).1

/-- Claim C10: an empty address string is treated exactly like a missing
address: for any value accepted by validation, the endpoint returns 200
with the Default calculator's output (no `MalformedAddress` error), even
though the empty address contains no two-letter state code. -/
theorem ptax_empty_address (value : String) (v : PyVal)
    (hv : floatOfString value = some v) (hr : rangeBad v = false) :
    ptax (some value) (some "") = ptax (some value) none ∧
    stateOf "" = none ∧
    ∃ r, default "" v = some r ∧ ptax (some value) (some "") = .ok r := by
  refine ⟨rfl, rfl, ?_⟩
  rw [ptax_valid_eq (some value) (some "") _ hv hr, if_neg (by simp)]
  exact ⟨_, rfl, rfl⟩

theorem ptax_empty_address_witness :
    ptax (some "100000") (some "") = ptax (some "100000") none ∧
    ptax (some "100000") (some "") =
      .ok { property_tax_amount := "1170.00"
            property_tax_effective_rate := .flt (.num rate_default)
            information := "Based on the nationwide average property tax rate" } := by
  obtain ⟨h1, _, r, hr, h2⟩ := ptax_empty_address "100000" (.num ⟨100000, 1⟩) (by decide) (by decide)
  refine ⟨h1, ?_⟩
  rw [h2]
  have hd : default "" (PyVal.num ⟨100000, 1⟩) = some
      { property_tax_amount := "1170.00"
        property_tax_effective_rate := .flt (.num rate_default)
        information := "Based on the nationwide average property tax rate" } := by decide
  rw [hd] at hr
  rw [Option.some.inj hr]


/-- Claim C7: for every request whose value string parses to `v`, the
endpoint answers 400 `"Value out of range"` exactly when `v < 1000` or
`v > 1e12` under IEEE comparison semantics; for finite `v = q` that is
exactly `toRat q < 1000 ∨ toRat q > 1e12`, and the boundary values 1000
and 1e12 pass the check. -/
theorem ptax_range_error_iff (value? address? : Option String) (v : PyVal)
    (hv : floatOfString (value?.getD "") = some v) :
    (ptax value? address? = .badRequest "Value out of range" ↔ rangeBad v = true) ∧
    (∀ q, v = .num q →
      (rangeBad v = true ↔ (Frac.toRat q < 1000 ∨ 1000000000000 < Frac.toRat q))) ∧
    rangeBad (.num (.ofInt 1000)) = false ∧
    rangeBad (.num (.ofInt 1000000000000)) = false := by
  refine ⟨⟨?_, fun h3 => ptax_outofrange value? address? v hv h3⟩, ?_, by decide, by decide⟩
  · intro h
    by_cases hr : rangeBad v = true
    · exact hr
    · exfalso
      rw [Bool.not_eq_true] at hr
      rw [ptax_valid_eq value? address? v hv hr] at h
      revert h
      split
      · intro h
        exact absurd (Resp.badRequest.inj h) (by decide)
      · split
        · intro h; exact Resp.noConfusion h
        · intro h; exact Resp.noConfusion h
  · rintro q rfl
    exact rangeBad_num_iff q (floatOfString_denPos _ q hv)

theorem ptax_range_error_iff_witness :
    ptax (some "999") none = .badRequest "Value out of range" ∧
    ptax (some "1000") none ≠ .badRequest "Value out of range" := by
  constructor
  · exact ((ptax_range_error_iff (some "999") none (.num ⟨999, 1⟩) (by decide)).1).mpr
      (by decide)
  · intro h
    have h2 := ((ptax_range_error_iff (some "1000") none (.num ⟨1000, 1⟩) (by decide)).1).mp h
    exact absurd h2 (by decide)

/-- Claim C3: the endpoint returns 400 exactly when one of the four
validation failures holds, checked in order: empty value, unparseable
value, out-of-range value, then address without a state code; each
failure yields its fixed error message, and the value errors take
precedence over the address error. -/
theorem ptax_badRequest_iff (value? address? : Option String) :
    (value?.getD "" = "" → ptax value? address? = .badRequest "No value provided") ∧
    (value?.getD "" ≠ "" → floatOfString (value?.getD "") = none →
      ptax value? address? = .badRequest "Bad value provided") ∧
    (∀ v, floatOfString (value?.getD "") = some v → rangeBad v = true →
      ptax value? address? = .badRequest "Value out of range") ∧
    (∀ v, floatOfString (value?.getD "") = some v → rangeBad v = false →
      address?.getD "" ≠ "" → stateOf (address?.getD "") = none →
      ptax value? address? =
        .badRequest "Please include two-character state (e.g., CA) in address.") ∧
    ((ptax value? address?).status = 400 ↔
      (value?.getD "" = "" ∨ floatOfString (value?.getD "") = none ∨
       (∃ v, floatOfString (value?.getD "") = some v ∧ rangeBad v = true) ∨
       (∃ v, floatOfString (value?.getD "") = some v ∧ rangeBad v = false ∧
         address?.getD "" ≠ "" ∧ stateOf (address?.getD "") = none))) := by
  refine ⟨ptax_novalue value? address?, ptax_badvalue value? address?,
    fun v hv h3 => ptax_outofrange value? address? v hv h3,
    fun v hv hr ha hs => by rw [ptax_valid_eq value? address? v hv hr, if_pos ⟨ha, hs⟩],
    ?_, ?_⟩
  · intro h400
    by_cases h1 : value?.getD "" = ""
    · exact Or.inl h1
    · cases hpv : floatOfString (value?.getD "") with
      | none => exact Or.inr (Or.inl rfl)
      | some v =>
        by_cases hr : rangeBad v = true
        · exact Or.inr (Or.inr (Or.inl ⟨v, rfl, hr⟩))
        · rw [Bool.not_eq_true] at hr
          by_cases hg : address?.getD "" ≠ "" ∧ stateOf (address?.getD "") = none
          · exact Or.inr (Or.inr (Or.inr ⟨v, rfl, hr, hg.1, hg.2⟩))
          · exfalso
            have hz := rangeBad_false_isZero v (floatOfString_denPosV _ v hpv) hr
            obtain ⟨r, hdr⟩ :=
              dispatchFn_isSome (address?.getD "") (stateOf (address?.getD "")) v hz
            have heq := ptax_valid_eq value? address? v hpv hr
            rw [if_neg hg, hdr] at heq
            rw [heq] at h400
            simp [Resp.status] at h400
  · rintro (h | h | ⟨v, hv, h3⟩ | ⟨v, hv, hr, ha, hs⟩)
    · rw [ptax_novalue value? address? h]; rfl
    · by_cases h1 : value?.getD "" = ""
      · rw [ptax_novalue value? address? h1]; rfl
      · rw [ptax_badvalue value? address? h1 h]; rfl
    · rw [ptax_outofrange value? address? v hv h3]; rfl
    · rw [ptax_valid_eq value? address? v hv hr, if_pos ⟨ha, hs⟩]; rfl

theorem ptax_badRequest_iff_witness :
    ptax (some "abc") none = .badRequest "Bad value provided" ∧
    ptax (some "100000") (some "123 Main St") =
      .badRequest "Please include two-character state (e.g., CA) in address." := by
  constructor
  · exact (ptax_badRequest_iff (some "abc") none).2.1 (by decide) (by decide)
  · exact (ptax_badRequest_iff (some "100000") (some "123 Main St")).2.2.2.1
      (.num ⟨100000, 1⟩) (by decide) (by decide) (by decide) (by decide)


/-- Claim C1: for every request with a validated value and a non-empty
address from which a state code is extracted, the code is the first
substring of the address consisting of two consecutive uppercase Latin
letters, and the endpoint returns 200 by invoking the calculator
registered for `CA`, `CO` or `DC`, and exactly the Default
(national-average) calculator for every other extracted code. -/
theorem ptax_state_dispatch (value address st : String) (v : PyVal)
    (hv : floatOfString value = some v) (hr : rangeBad v = false)
    (ha : address ≠ "") (hst : stateOf address = some st) :
    (∃ a b, st = String.mk [a, b] ∧ isUpperL a = true ∧ isUpperL b = true ∧
      ∃ i, address.data.get? i = some a ∧ address.data.get? (i + 1) = some b ∧
        ∀ j, j < i → ∀ c d, address.data.get? j = some c →
          address.data.get? (j + 1) = some d →
          ¬(isUpperL c = true ∧ isUpperL d = true)) ∧
    (ptax (some value) (some address)).status = 200 ∧
    ∃ r, ptax (some value) (some address) = .ok r ∧
      (st = "CA" → california address v = some r) ∧
      (st = "CO" → colorado address v = some r) ∧
      (st = "DC" → washington_dc address v = some r) ∧
      (st ≠ "CA" → st ≠ "CO" → st ≠ "DC" → default address v = some r) := by
  obtain ⟨⟨a, b⟩, hfp, hmk⟩ := Option.map_eq_some'.mp hst
  obtain ⟨i, h1, h2, h3, h4, h5⟩ := findPair_first _ a b hfp
  refine ⟨⟨a, b, hmk.symm, h3, h4, i, h1, h2, h5⟩, ?_⟩
  have hguard : ¬(address ≠ "" ∧ stateOf address = none) := by
    rw [hst]; rintro ⟨_, hn⟩; exact Option.noConfusion hn
  have hrw := ptax_valid_eq (some value) (some address) v hv hr
  simp only [Option.getD_some] at hrw
  rw [if_neg hguard, hst, dispatchFn_of_ne address st ha] at hrw
  by_cases hca : st = "CA"
  · subst hca
    have hok : ptax (some value) (some address) = .ok
        { property_tax_amount := fmtFixed 2 (mulV v (.num rate_california))
          property_tax_effective_rate := .flt (.num rate_california)
          information := "Based on the California statewide average property tax rate" } :=
      hrw.trans rfl
    rw [hok]
    exact ⟨rfl, _, rfl, fun _ => rfl, fun h => absurd h (by decide),
      fun h => absurd h (by decide), fun h => absurd rfl h⟩
  · by_cases hco : st = "CO"
    · subst hco
      have hok : ptax (some value) (some address) = .ok
          { property_tax_amount := fmtFixed 2 (mulV v (.num rate_colorado))
            property_tax_effective_rate := .flt (.num rate_colorado)
            information := "Based on the Colorado statewide average property tax rate" } :=
        hrw.trans rfl
      rw [hok]
      exact ⟨rfl, _, rfl, fun h => absurd h (by decide), fun _ => rfl,
        fun h => absurd h (by decide), fun _ h => absurd rfl h⟩
    · by_cases hdc : st = "DC"
      · subst hdc
        have hz := rangeBad_false_isZero v (floatOfString_denPosV value v hv) hr
        obtain ⟨rv, _, hw⟩ := washington_dc_eq address v hz
        have hok : ptax (some value) (some address) = .ok
            { property_tax_amount := fmtFixed 2
                (mulV (maxV (subV v (.num (.ofInt 73350))) (.num (.ofInt 0))) (.num rate_dc))
              property_tax_effective_rate := .str (fmtFixed 5 rv)
              information :=
                "Based on DC-wide property tax rate after application of homestead exemption" } := by
          rw [hrw]
          have : (state_map "DC").getD default = washington_dc := rfl
          rw [this, hw]
        rw [hok]
        refine ⟨rfl, _, rfl, fun h => absurd h (by decide), fun h => absurd h (by decide),
          fun _ => hw, fun _ _ h => absurd rfl h⟩
      · have hmap : state_map st = none := by
          rw [state_map, if_neg hca, if_neg hco, if_neg hdc]
        rw [hmap, Option.getD_none] at hrw
        have hok : ptax (some value) (some address) = .ok
            { property_tax_amount := fmtFixed 2 (mulV v (.num rate_default))
              property_tax_effective_rate := .flt (.num rate_default)
              information := "Based on the nationwide average property tax rate" } :=
          hrw.trans rfl
        rw [hok]
        exact ⟨rfl, _, rfl, fun h => absurd h hca, fun h => absurd h hco,
          fun h => absurd h hdc, fun _ _ _ => rfl⟩

theorem ptax_state_dispatch_witness :
    ptax (some "100000") (some "Somewhere, ZZ") =
      .ok { property_tax_amount := "1170.00"
            property_tax_effective_rate := .flt (.num rate_default)
            information := "Based on the nationwide average property tax rate" } := by
  obtain ⟨_, _, r, hok, _, _, _, hdef⟩ :=
    ptax_state_dispatch "100000" "Somewhere, ZZ" "ZZ" (.num ⟨100000, 1⟩)
      (by decide) (by decide) (by decide) (by decide)
  have hd := hdef (by decide) (by decide) (by decide)
  rw [hok]
  have hd2 : default "Somewhere, ZZ" (PyVal.num ⟨100000, 1⟩) = some
      { property_tax_amount := "1170.00"
        property_tax_effective_rate := .flt (.num rate_default)
        information := "Based on the nationwide average property tax rate" } := by decide
  rw [hd2] at hd
  rw [← Option.some.inj hd]

end Ptax

namespace Ptax

/-- Claim C8: under the precondition `1000 ≤ value ≤ 1e12`, every
calculator is total and returns a result with exactly the three fields
`property_tax_amount`, `property_tax_effective_rate` and `information`;
the DC division `amount / value` never divides by zero, and
`max(value - 73350, 0)` keeps the assessed amount nonnegative. -/
theorem calculators_total (address : String) (q : Frac)
    (hden : 0 < q.den) (h1 : 1000 ≤ Frac.toRat q) (h2 : Frac.toRat q ≤ 1000000000000) :
    california address (.num q) = some
      { property_tax_amount := fmtFixed 2 (mulV (.num q) (.num rate_california))
        property_tax_effective_rate := .flt (.num rate_california)
        information := "Based on the California statewide average property tax rate" } ∧
    colorado address (.num q) = some
      { property_tax_amount := fmtFixed 2 (mulV (.num q) (.num rate_colorado))
        property_tax_effective_rate := .flt (.num rate_colorado)
        information := "Based on the Colorado statewide average property tax rate" } ∧
    default address (.num q) = some
      { property_tax_amount := fmtFixed 2 (mulV (.num q) (.num rate_default))
        property_tax_effective_rate := .flt (.num rate_default)
        information := "Based on the nationwide average property tax rate" } ∧
    (∃ q2, mulV (maxV (subV (.num q) (.num (.ofInt 73350))) (.num (.ofInt 0))) (.num rate_dc)
        = .num q2 ∧ 0 ≤ Frac.toRat q2) ∧
    (∃ rv,
      divV (mulV (maxV (subV (.num q) (.num (.ofInt 73350))) (.num (.ofInt 0))) (.num rate_dc))
          (.num q) = some rv ∧
      washington_dc address (.num q) = some
        { property_tax_amount := fmtFixed 2
            (mulV (maxV (subV (.num q) (.num (.ofInt 73350))) (.num (.ofInt 0))) (.num rate_dc))
          property_tax_effective_rate := .str (fmtFixed 5 rv)
          information :=
            "Based on DC-wide property tax rate after application of homestead exemption" }) := by
  have hnz : q.num ≠ 0 := by
    intro h0
    rw [Frac.toRat, h0] at h1
    norm_num at h1
  have hz : isZeroV (.num q) = false := by
    simp [isZeroV, hnz]
  refine ⟨rfl, rfl, rfl, ?_, washington_dc_eq address (.num q) hz⟩
  unfold maxV
  by_cases hlt : ltV (subV (.num q) (.num (.ofInt 73350))) (.num (.ofInt 0)) = true
  · rw [if_pos hlt]
    refine ⟨_, rfl, ?_⟩
    norm_num [Frac.mul, Frac.ofInt, Frac.toRat, rate_dc]
  · rw [if_neg hlt]
    refine ⟨_, rfl, ?_⟩
    have hs : 0 ≤ (q.sub (.ofInt 73350)).num := by
      simp only [subV, ltV, Frac.lt, decide_eq_true_eq, not_lt, Frac.ofInt, mul_one,
        zero_mul] at hlt
      exact hlt
    have hsd : 0 < (q.sub (.ofInt 73350)).den := by
      simpa [Frac.sub, Frac.ofInt] using hden
    rw [Frac.toRat]
    apply div_nonneg
    · have hnum : 0 ≤ ((q.sub (.ofInt 73350)).mul rate_dc).num := by
        simp only [Frac.mul, rate_dc]
        exact mul_nonneg hs (by norm_num)
      exact_mod_cast hnum
    · have hden2 : 0 ≤ ((q.sub (.ofInt 73350)).mul rate_dc).den := by
        simp only [Frac.mul, rate_dc]
        exact mul_nonneg (le_of_lt hsd) (by norm_num)
      exact_mod_cast hden2

theorem calculators_total_witness :
    california "A" (.num ⟨500000, 1⟩) = some
      { property_tax_amount := "5715.00"
        property_tax_effective_rate := .flt (.num rate_california)
        information := "Based on the California statewide average property tax rate" } := by
  have h := (calculators_total "A" ⟨500000, 1⟩ (by decide)
    (by norm_num [Frac.toRat]) (by norm_num [Frac.toRat])).1
  rw [h]
  decide

end Ptax
